import Mathlib

/-!
Shallow embedding of the KCC Query Assistant core (`utils.py`) and proofs
about its retrieval, preprocessing, generation and fallback-search logic.

Modelling conventions:
* pandas cells that may be NaN are `Option String`; `dropna` keeps rows whose
  cells are `some`; rendering a NaN cell in an f-string prints `"nan"`.
* FAISS similarity distances are `ℚ` (the code only compares and reports them).
* The persisted index, the HTTP providers and the local model subprocess are
  external effects; their observable responses are passed in as data
  (`Except` for calls that can raise), and the functions under test are the
  exact result-processing and control flow of the Python source.
* Python `str.startswith` is modelled as a character-list prefix test.
-/

/-- One row of the KCC corpus as read by pandas: each cell may be missing. -/
structure RawRecord where
  QueryText : Option String
  KccAns : Option String
  StateName : Option String
  DistrictName : Option String
  Crop : Option String

/-- Rendering of a pandas cell inside an f-string: a NaN cell prints "nan". -/
def pandasCell : Option String → String
  | none => "nan"
  | some s => s

/-- `df.dropna(subset=['QueryText', 'KccAns'])` keeps a row iff both cells are present. -/
def keptRow (row : RawRecord) : Bool :=
  row.QueryText.isSome && row.KccAns.isSome

/-- The document text built for one surviving row (`utils.py` lines 23-26). -/
def rowText (row : RawRecord) : String :=
  "Query: " ++ pandasCell row.QueryText ++ "\nAnswer: " ++ pandasCell row.KccAns ++
    "\nMeta: State=" ++ pandasCell row.StateName ++ ", District=" ++ pandasCell row.DistrictName ++
    ", Crop=" ++ pandasCell row.Crop

/-- The `for idx, row in df.iterrows()` loop of `preprocess_kcc`: `idx` is the
original zero-based row label assigned when the CSV was read, preserved by
`dropna`, and the id stored is `str(idx)`. -/
def preprocessAux : Nat → List RawRecord → List (String × String)
  | _, [] => []
  | idx, row :: rest =>
    if keptRow row then (toString idx, rowText row) :: preprocessAux (idx + 1) rest
    else preprocessAux (idx + 1) rest

/-- `preprocess_kcc` (`utils.py` lines 18-30), as the pure transform from the
raw rows to the persisted `(id, content)` sequence. -/
def preprocess_kcc (records : List RawRecord) : List (String × String) :=
  preprocessAux 0 records

/-- The same traversal keeping the row ordinal as a `Nat`, used to state which
rows survive and which original position each document id denotes. -/
def preprocessRows : Nat → List RawRecord → List (Nat × String)
  | _, [] => []
  | idx, row :: rest =>
    if keptRow row then (idx, rowText row) :: preprocessRows (idx + 1) rest
    else preprocessRows (idx + 1) rest

theorem preprocessAux_eq_map (rs : List RawRecord) :
    ∀ i, preprocessAux i rs = (preprocessRows i rs).map (fun p => (toString p.1, p.2)) := by
  induction rs with
  | nil => intro i; rfl
  | cons r rest ih =>
    intro i
    by_cases hk : keptRow r
    · simp [preprocessAux, preprocessRows, hk, ih]
    · simp [preprocessAux, preprocessRows, hk, ih]

theorem length_preprocessRows (rs : List RawRecord) :
    ∀ i, (preprocessRows i rs).length = (rs.filter keptRow).length := by
  induction rs with
  | nil => intro i; rfl
  | cons r rest ih =>
    intro i
    by_cases hk : keptRow r
    · simp [preprocessRows, List.filter_cons, hk, ih]
    · simp [preprocessRows, List.filter_cons, hk, ih]

theorem mem_preprocessRows (rs : List RawRecord) :
    ∀ (start i : Nat) (c : String),
      ((i, c) ∈ preprocessRows start rs ↔
        ∃ k, ∃ h : k < rs.length,
          i = start + k ∧ keptRow (rs.get ⟨k, h⟩) = true ∧ c = rowText (rs.get ⟨k, h⟩)) := by
  induction rs with
  | nil =>
    intro start i c
    simp [preprocessRows]
  | cons r rest ih =>
    intro start i c
    constructor
    · intro hmem
      by_cases hk : keptRow r
      · rw [show preprocessRows start (r :: rest)
              = (start, rowText r) :: preprocessRows (start + 1) rest by
            simp [preprocessRows, hk]] at hmem
        rcases List.mem_cons.mp hmem with heq | hmem2
        · have hi : i = start := congrArg Prod.fst heq
          have hc : c = rowText r := congrArg Prod.snd heq
          exact ⟨0, Nat.succ_pos _, by omega, by simpa using hk, by simpa using hc⟩
        · obtain ⟨k, h, hik, hkpt, hc⟩ := (ih (start + 1) i c).mp hmem2
          exact ⟨k + 1, Nat.succ_lt_succ h, by omega, by simpa using hkpt, by simpa using hc⟩
      · rw [show preprocessRows start (r :: rest) = preprocessRows (start + 1) rest by
            simp [preprocessRows, hk]] at hmem
        obtain ⟨k, h, hik, hkpt, hc⟩ := (ih (start + 1) i c).mp hmem
        exact ⟨k + 1, Nat.succ_lt_succ h, by omega, by simpa using hkpt, by simpa using hc⟩
    · rintro ⟨k, h, hik, hkpt, hc⟩
      cases k with
      | zero =>
        have hk : keptRow r = true := by simpa using hkpt
        rw [show preprocessRows start (r :: rest)
            = (start, rowText r) :: preprocessRows (start + 1) rest by
          simp [preprocessRows, hk]]
        have : (i, c) = (start, rowText r) := by
          have hi : i = start := by omega
          have hcr : c = rowText r := by simpa using hc
          rw [hi, hcr]
        exact this ▸ List.mem_cons_self _ _
      | succ k' =>
        have hmem2 : (i, c) ∈ preprocessRows (start + 1) rest := by
          refine (ih (start + 1) i c).mpr ⟨k', Nat.lt_of_succ_lt_succ h, by omega, ?_, ?_⟩
          · simpa using hkpt
          · simpa using hc
        by_cases hk : keptRow r
        · rw [show preprocessRows start (r :: rest)
              = (start, rowText r) :: preprocessRows (start + 1) rest by
            simp [preprocessRows, hk]]
          exact List.mem_cons_of_mem _ hmem2
        · rw [show preprocessRows start (r :: rest) = preprocessRows (start + 1) rest by
            simp [preprocessRows, hk]]
          exact hmem2

/-- Claim C7: normalization drops exactly the records missing query text or
answer text, produces one document per surviving record, and each document id
is the stringified zero-based ordinal of the record's original row position
before filtering. -/
theorem preprocess_filter_and_ids (records : List RawRecord) :
    preprocess_kcc records = (preprocessRows 0 records).map (fun p => (toString p.1, p.2)) ∧
    (preprocessRows 0 records).length = (records.filter keptRow).length ∧
    ∀ i c, ((i, c) ∈ preprocessRows 0 records ↔
      ∃ h : i < records.length,
        keptRow (records.get ⟨i, h⟩) = true ∧ c = rowText (records.get ⟨i, h⟩)) := by
  refine ⟨preprocessAux_eq_map records 0, length_preprocessRows records 0, ?_⟩
  intro i c
  rw [mem_preprocessRows records 0 i c]
  constructor
  · rintro ⟨k, h, hik, hkpt, hc⟩
    have hk : i = k := by omega
    subst hk
    exact ⟨h, hkpt, hc⟩
  · rintro ⟨h, hkpt, hc⟩
    exact ⟨i, h, by omega, hkpt, hc⟩

/-- Witness for C7 on a concrete corpus: row 0 lacks the query text and is
dropped, row 1 survives and its document keeps the original ordinal 1. -/
theorem preprocess_filter_and_ids_witness :
    (1, rowText ⟨some "q", some "ans", none, none, none⟩) ∈
      preprocessRows 0 [⟨none, some "a", none, none, none⟩,
        ⟨some "q", some "ans", none, none, none⟩] :=
  ((preprocess_filter_and_ids [⟨none, some "a", none, none, none⟩,
      ⟨some "q", some "ans", none, none, none⟩]).2.2 1
    (rowText ⟨some "q", some "ans", none, none, none⟩)).mpr
    ⟨by decide, rfl, rfl⟩

/-- Claim C8: a retained record whose metadata cells are missing still yields a
document; the NaN metadata cells render as the placeholder "nan" in the fixed
template, and no failure path exists. -/
theorem rowText_placeholder_total (q a : String) (st di cr : Option String) :
    preprocess_kcc [⟨some q, some a, st, di, cr⟩] =
      [("0", "Query: " ++ q ++ "\nAnswer: " ++ a ++ "\nMeta: State=" ++ pandasCell st ++
        ", District=" ++ pandasCell di ++ ", Crop=" ++ pandasCell cr)] ∧
    pandasCell none = "nan" :=
  ⟨rfl, rfl⟩

/-- `retrieve_context_with_score` (`utils.py` lines 41-54).  The opaque FAISS
index is represented by whether the persisted artifact exists and by the
ranked `(page_content, distance)` list that `similarity_search_with_score`
returns for the query with `k = top_k`. -/
def retrieve_context_with_score (indexExists : Bool)
    (searchResults : List (String × ℚ)) (score_threshold : ℚ) : Option String × ℚ :=
  if indexExists = false then (none, 0)
  else
    match searchResults with
    | [] => (none, 0)
    | (_, best_distance) :: _ =>
      if best_distance > score_threshold then (none, best_distance)
      else (some (String.intercalate "\n\n" (searchResults.map Prod.fst)), best_distance)

/-- Claim C2: with the index present, retrieval rejects with best distance 0 on
zero candidates, rejects with the first candidate's distance when it exceeds
the threshold, and otherwise accepts the blank-line join of all returned
candidates' content together with that best distance. -/
theorem retrieve_threshold_policy (searchResults : List (String × ℚ)) (t : ℚ) :
    (retrieve_context_with_score true [] t = (none, 0)) ∧
    (∀ c d rest, searchResults = (c, d) :: rest → d > t →
      retrieve_context_with_score true searchResults t = (none, d)) ∧
    (∀ c d rest, searchResults = (c, d) :: rest → d ≤ t →
      retrieve_context_with_score true searchResults t =
        (some (String.intercalate "\n\n" (searchResults.map Prod.fst)), d)) := by
  refine ⟨rfl, ?_, ?_⟩
  · intro c d rest hres hgt
    subst hres
    simp [retrieve_context_with_score, hgt]
  · intro c d rest hres hle
    subst hres
    simp [retrieve_context_with_score, not_lt.mpr hle]

/-- Witness for C2 at a concrete index response: two candidates at distances 1
and 3 against threshold 2 are accepted and joined with a blank line. -/
theorem retrieve_threshold_policy_witness :
    retrieve_context_with_score true [("A", 1), ("B", 3)] 2 =
      (some (String.intercalate "\n\n" ["A", "B"]), 1) := by
  have h := (retrieve_threshold_policy [("A", (1 : ℚ)), ("B", 3)] 2).2.2 "A" 1 [("B", 3)] rfl
    (by norm_num)
  simpa using h

/-- Amended claim C3: when the persisted index artifact is absent the code does
not raise any error; it silently returns the same `(None, 0)` pair that an
empty candidate set produces. -/
theorem retrieve_missing_index_silent (searchResults : List (String × ℚ)) (t : ℚ) :
    retrieve_context_with_score false searchResults t = (none, 0) := rfl

/-- Counterexample to C3 as stated: with the index artifact absent the call
returns `(none, 0)` — even when the (never-consulted) index would have had a
good candidate — which is byte-identical to the zero-candidate rejection, so
no `IndexNotFoundError`-like failure is surfaced and the caller cannot
distinguish the missing index from a no-match rejection. -/
theorem retrieve_missing_index_counterexample :
    retrieve_context_with_score false [("doc", (2 : ℚ) / 5)] 1 = (none, 0) ∧
    retrieve_context_with_score true [] 1 = (none, 0) :=
  ⟨rfl, rfl⟩

/-- Claim C9: for a fixed query and index response, the outcome is monotone in
the threshold — once accepted at `t1 ≤ t2` it is accepted (with the same
result) at `t2`. -/
theorem retrieve_threshold_monotone (indexExists : Bool)
    (searchResults : List (String × ℚ)) (t1 t2 : ℚ) (hle : t1 ≤ t2)
    (hacc : (retrieve_context_with_score indexExists searchResults t1).1.isSome = true) :
    retrieve_context_with_score indexExists searchResults t2 =
      retrieve_context_with_score indexExists searchResults t1 ∧
    (retrieve_context_with_score indexExists searchResults t2).1.isSome = true := by
  cases indexExists with
  | false => simp [retrieve_context_with_score] at hacc
  | true =>
    cases searchResults with
    | nil => simp [retrieve_context_with_score] at hacc
    | cons hd tl =>
      obtain ⟨c, d⟩ := hd
      by_cases hgt : d > t1
      · simp [retrieve_context_with_score, hgt] at hacc
      · have hle2 : ¬ d > t2 := by
          intro h2
          exact hgt (lt_of_le_of_lt hle h2)
        constructor
        · simp [retrieve_context_with_score, hgt, hle2]
        · simp [retrieve_context_with_score, hle2]

/-- Witness for C9: a candidate at distance 1 accepted at threshold 2 stays
accepted, with the identical result, at the higher threshold 3. -/
theorem retrieve_threshold_monotone_witness :
    retrieve_context_with_score true [("A", 1)] 3 =
      retrieve_context_with_score true [("A", 1)] 2 ∧
    (retrieve_context_with_score true [("A", (1 : ℚ))] 3).1.isSome = true :=
  retrieve_threshold_monotone true [("A", 1)] 2 3 (by norm_num) (by decide)

/-- Observable outcome of `subprocess.run(["ollama", "run", "gemma:2b", prompt],
capture_output=True, ...)`: when the process can be spawned it completes with
an exit code and captured streams (no exception is raised for a non-zero exit
code); failing to spawn raises, modelled by `Except.error`. -/
structure ProcResult where
  returncode : Int
  stdout : String
  stderr : String

/-- The fixed prompt template of `ask_gemma` (`utils.py` line 57). -/
def gemma_prompt (query context : String) : String :=
  "Answer the user\x27s question using the following agricultural advice:\n\n" ++ context ++
    "\n\nQuestion: " ++ query

/-- `ask_gemma` (`utils.py` lines 56-65): run the generator subprocess on the
built prompt and return `result.stdout.strip()`. -/
def ask_gemma (query context : String)
    (runProcess : String → Except String ProcResult) : Except String String :=
  match runProcess (gemma_prompt query context) with
  | Except.error e => Except.error e
  | Except.ok result => Except.ok result.stdout.trim

/-- Amended claim C4: the synthesizer never inspects the generator's exit
status — whenever the subprocess call completes it returns the trimmed stdout
(`Except.ok`), even for a non-success status; only a failure to invoke the
generator at all propagates as an error, which is what the caller can
distinguish from a retrieval rejection. -/
theorem ask_gemma_ignores_exit_status (query context : String)
    (runProcess : String → Except String ProcResult) :
    (∀ result, runProcess (gemma_prompt query context) = Except.ok result →
      ask_gemma query context runProcess = Except.ok result.stdout.trim) ∧
    (∀ e, runProcess (gemma_prompt query context) = Except.error e →
      ask_gemma query context runProcess = Except.error e) := by
  constructor
  · intro result hrun
    simp [ask_gemma, hrun]
  · intro e hrun
    simp [ask_gemma, hrun]

/-- Witness for C4's amended statement at a concrete run result. -/
theorem ask_gemma_ignores_exit_status_witness :
    ask_gemma "q" "ctx" (fun _ => Except.ok ⟨0, " hello ", ""⟩) =
      Except.ok (" hello " : String).trim :=
  (ask_gemma_ignores_exit_status "q" "ctx" (fun _ => Except.ok ⟨0, " hello ", ""⟩)).1
    ⟨0, " hello ", ""⟩ rfl

/-- Counterexample to C4 as stated: the generator reports a non-success status
(exit code 1), yet `ask_gemma` still returns an ok result (the trimmed stdout)
instead of failing with any `GenerationError`-like error. -/
theorem ask_gemma_nonzero_exit_counterexample :
    (ask_gemma "q" "ctx" (fun _ => Except.ok ⟨1, "oops", "boom"⟩)).isOk = true := rfl

/-- Python `str.startswith(p)`: is `p` a prefix of the character sequence. -/
def pyStartsWith (s p : String) : Bool := p.data.isPrefixOf s.data

/-- Python truthiness of the optional API key: `None` and `""` are falsy. -/
def pyTruthy : Option String → Bool
  | none => false
  | some s => !s.isEmpty

/-- One entry of the parsed `organic_results` JSON array; each field is taken
with `.get(field, "")`, so each may be absent. -/
structure SerpOrganicResult where
  title : Option String
  snippet : Option String
  link : Option String

/-- The parsed `answer_box` JSON object: the code tests `"snippet" in
answer_box` (key presence) and reads the link with `.get("link", "")`. -/
structure SerpAnswerBox where
  snippet : Option String
  link : Option String

/-- The parsed SerpAPI JSON body: both top-level keys are optional. -/
structure SerpResponse where
  organic_results : Option (List SerpOrganicResult)
  answer_box : Option SerpAnswerBox

/-- The exceptions the SerpAPI call can raise, matching the three `except`
clauses of `fallback_live_search`. -/
inductive SerpFailure where
  | requestError (msg : String)
  | keyError (msg : String)
  | otherError (msg : String)

/-- A normalized search result entry as built by the fallback functions. -/
structure ResultItem where
  title : String
  snippet : String
  source : String

/-- The organic-results loop of `fallback_live_search` (lines 100-111): keep an
entry only if its snippet is truthy (present and non-empty). -/
def organicItems (data : SerpResponse) : List ResultItem :=
  match data.organic_results with
  | none => []
  | some rs => rs.filterMap fun r =>
      if (r.snippet.getD "").isEmpty = true then none
      else some ⟨r.title.getD "", r.snippet.getD "", r.link.getD ""⟩

/-- The answer-box handling (lines 114-121): if the key `snippet` is present
(whatever its value), an item titled "Featured Answer" is inserted first. -/
def answerBoxItem (data : SerpResponse) : Option ResultItem :=
  match data.answer_box with
  | none => none
  | some ab =>
    match ab.snippet with
    | none => none
    | some s => some ⟨"Featured Answer", s, ab.link.getD ""⟩

/-- The full normalized result list before capping: the answer-box item (if
any) inserted at position 0 in front of the organic items. -/
def extractedResults (data : SerpResponse) : List ResultItem :=
  (answerBoxItem data).toList ++ organicItems data

/-- One formatted display block (lines 127-129). -/
def formatResultItem (i : Nat) (r : ResultItem) : String :=
  "**Result " ++ toString i ++ ":** " ++ r.title ++ "\n" ++ r.snippet ++
    "\n*Source: " ++ r.source ++ "*"

/-- `for i, result in enumerate(results[:3], 1)` applied to a list. -/
def formatResultsFrom (i : Nat) : List ResultItem → List String
  | [] => []
  | r :: rest => formatResultItem i r :: formatResultsFrom (i + 1) rest

/-- `fallback_live_search` (`utils.py` lines 67-141) as the pure function of
the API-key configuration and the observable outcome of the HTTP call. -/
def fallback_live_search (query : String) (api_key : Option String)
    (response : Except SerpFailure SerpResponse) : String :=
  if pyTruthy api_key = false then "Live search unavailable: No API key provided."
  else
    match response with
    | Except.error (SerpFailure.requestError e) =>
        "Live search unavailable: Network error (" ++ e ++ ")"
    | Except.error (SerpFailure.keyError e) =>
        "Live search unavailable: Invalid API response (" ++ e ++ ")"
    | Except.error (SerpFailure.otherError e) => "Live search unavailable: " ++ e
    | Except.ok data =>
      if (extractedResults data).isEmpty = true then
        "No relevant search results found for your agricultural query."
      else String.intercalate "\n\n---\n\n" (formatResultsFrom 1 ((extractedResults data).take 3))

/-- One DuckDuckGo result dict, with the keys the code reads. -/
structure DdgResult where
  title : String
  body : String
  href : String

/-- The exceptions the DuckDuckGo call can raise, matching the two `except`
clauses of `fallback_search_alternative`. -/
inductive DdgFailure where
  | importError
  | otherError (msg : String)

/-- One formatted DuckDuckGo display block (lines 160-162). -/
def formatDdgItem (i : Nat) (r : DdgResult) : String :=
  "**Result " ++ toString i ++ ":** " ++ r.title ++ "\n" ++ r.body ++
    "\n*Source: " ++ r.href ++ "*"

/-- `for i, result in enumerate(results, 1)` applied to a list. -/
def formatDdgFrom (i : Nat) : List DdgResult → List String
  | [] => []
  | r :: rest => formatDdgItem i r :: formatDdgFrom (i + 1) rest

/-- `fallback_search_alternative` (`utils.py` lines 143-172) as the pure
function of the observable outcome of the DuckDuckGo call. -/
def fallback_search_alternative (response : Except DdgFailure (List DdgResult)) : String :=
  match response with
  | Except.error DdgFailure.importError =>
      "Alternative search unavailable: duckduckgo-search not installed."
  | Except.error (DdgFailure.otherError e) => "Alternative search unavailable: " ++ e
  | Except.ok results =>
    if results.isEmpty = true then "No relevant search results found."
    else String.intercalate "\n\n---\n\n" (formatDdgFrom 1 results)

/-- Header prepended when the SerpAPI branch wins (line 183). -/
def serpHeader : String := "üîç **Live Internet Search Results:**\n\n"

/-- Header prepended when the DuckDuckGo branch wins (line 188). -/
def ddgHeader : String := "üîç **Live Internet Search Results (via DuckDuckGo):**\n\n"

/-- The aggregate message returned when both methods fail (lines 191-193). -/
def allFailedMessage : String :=
  "üö´ **Live search currently unavailable.**\n\nPlease check your internet connection or API key configuration. You can try rephrasing your query or ask about topics covered in the local KCC dataset."

/-- The tail of `comprehensive_fallback_search` after the SerpAPI attempt
(lines 186-193): try DuckDuckGo, else the aggregate failure message. -/
def ddgFallbackStage (ddgResponse : Except DdgFailure (List DdgResult)) : String :=
  if pyStartsWith (fallback_search_alternative ddgResponse) "Alternative search unavailable" = false
  then ddgHeader ++ fallback_search_alternative ddgResponse
  else allFailedMessage

/-- `comprehensive_fallback_search` (`utils.py` lines 175-193). -/
def comprehensive_fallback_search (query : String) (api_key : Option String)
    (serpResponse : Except SerpFailure SerpResponse)
    (ddgResponse : Except DdgFailure (List DdgResult)) : String :=
  if pyTruthy api_key = true then
    if pyStartsWith (fallback_live_search query api_key serpResponse) "Live search unavailable" = false
    then serpHeader ++ fallback_live_search query api_key serpResponse
    else ddgFallbackStage ddgResponse
  else ddgFallbackStage ddgResponse

theorem isPrefixOf_append_left :
    ∀ (p a b : List Char), p.isPrefixOf a = true → p.isPrefixOf (a ++ b) = true := by
  intro p
  induction p with
  | nil => intro a b _; simp
  | cons x xs ih =>
    intro a b h
    cases a with
    | nil => simp [List.isPrefixOf] at h
    | cons y ys =>
      rw [List.isPrefixOf_cons₂] at h
      obtain ⟨hxy, htail⟩ := Bool.and_eq_true_iff.mp h
      rw [List.cons_append, List.isPrefixOf_cons₂, hxy, ih ys b htail]
      rfl

theorem pyStartsWith_append_left (a b p : String) (h : pyStartsWith a p = true) :
    pyStartsWith (a ++ b) p = true := by
  rw [pyStartsWith, String.data_append]
  exact isPrefixOf_append_left p.data a.data b.data h

theorem pyStartsWith_false_of_head (s p : String) (c cp : Char) (ts tp : List Char)
    (hs : s.data = c :: ts) (hp : p.data = cp :: tp) (hne : (cp == c) = false) :
    pyStartsWith s p = false := by
  rw [pyStartsWith, hs, hp, List.isPrefixOf_cons₂, hne]
  rfl

theorem intercalate_go_extends (sep : String) :
    ∀ (l : List String) (acc : String),
      String.intercalate.go acc sep l = acc ∨
      ∃ t : String, String.intercalate.go acc sep l = acc ++ t := by
  intro l
  induction l with
  | nil => intro acc; exact Or.inl rfl
  | cons a as ih =>
    intro acc
    rcases ih (acc ++ sep ++ a) with h | ⟨t, ht⟩
    · refine Or.inr ⟨sep ++ a, ?_⟩
      rw [String.intercalate.go, h]
      simp [String.append_assoc]
    · refine Or.inr ⟨sep ++ a ++ t, ?_⟩
      rw [String.intercalate.go, ht]
      simp [String.append_assoc]

theorem intercalate_head_cons (sep x : String) (xs : List String) (c : Char)
    (t : List Char) (hx : x.data = c :: t) :
    ∃ u, (String.intercalate sep (x :: xs)).data = c :: u := by
  rw [String.intercalate]
  rcases intercalate_go_extends sep xs x with h | ⟨s, hs⟩
  · exact ⟨t, by rw [h, hx]⟩
  · exact ⟨t ++ s.data, by rw [hs, String.data_append, hx]; rfl⟩

theorem formatResultItem_head (i : Nat) (r : ResultItem) :
    ∃ t, (formatResultItem i r).data = '*' :: t := by
  refine ⟨("*Result " ++ toString i ++ ":** " ++ r.title ++ "\n" ++ r.snippet ++
    "\n*Source: " ++ r.source ++ "*").data, ?_⟩
  simp [formatResultItem, String.data_append]

theorem formatDdgItem_head (i : Nat) (r : DdgResult) :
    ∃ t, (formatDdgItem i r).data = '*' :: t := by
  refine ⟨("*Result " ++ toString i ++ ":** " ++ r.title ++ "\n" ++ r.body ++
    "\n*Source: " ++ r.href ++ "*").data, ?_⟩
  simp [formatDdgItem, String.data_append]

theorem serp_ok_not_unavailable (q : String) (key : Option String) (data : SerpResponse)
    (hk : pyTruthy key = true) :
    pyStartsWith (fallback_live_search q key (Except.ok data)) "Live search unavailable" = false := by
  simp only [fallback_live_search, hk, Bool.true_eq_false, if_false]
  cases hE : extractedResults data with
  | nil => simp [hE]; decide
  | cons e es =>
    simp only [hE, List.isEmpty_cons, Bool.false_eq_true, if_false]
    have htake : (e :: es).take 3 = e :: es.take 2 := rfl
    rw [htake]
    have hff : formatResultsFrom 1 (e :: es.take 2)
        = formatResultItem 1 e :: formatResultsFrom 2 (es.take 2) := rfl
    rw [hff]
    obtain ⟨t, ht⟩ := formatResultItem_head 1 e
    obtain ⟨u, hu⟩ :=
      intercalate_head_cons "\n\n---\n\n" _ (formatResultsFrom 2 (es.take 2)) '*' t ht
    exact pyStartsWith_false_of_head _ _ '*' 'L' u ("ive search unavailable").data hu rfl rfl

theorem serp_error_unavailable (q : String) (key : Option String) (f : SerpFailure) :
    pyStartsWith (fallback_live_search q key (Except.error f)) "Live search unavailable" = true := by
  by_cases hk : pyTruthy key = true
  · simp only [fallback_live_search, hk, Bool.true_eq_false, if_false]
    cases f with
    | requestError e =>
      exact pyStartsWith_append_left _ ")" _ (pyStartsWith_append_left _ e _ (by decide))
    | keyError e =>
      exact pyStartsWith_append_left _ ")" _ (pyStartsWith_append_left _ e _ (by decide))
    | otherError e => exact pyStartsWith_append_left _ e _ (by decide)
  · have hk2 : pyTruthy key = false := by
      revert hk; cases pyTruthy key <;> simp
    simp only [fallback_live_search, hk2, if_true]
    decide

theorem ddg_ok_not_unavailable (items : List DdgResult) :
    pyStartsWith (fallback_search_alternative (Except.ok items))
      "Alternative search unavailable" = false := by
  cases items with
  | nil => decide
  | cons r rs =>
    simp only [fallback_search_alternative, List.isEmpty_cons, Bool.false_eq_true, if_false]
    have hff : formatDdgFrom 1 (r :: rs) = formatDdgItem 1 r :: formatDdgFrom 2 rs := rfl
    rw [hff]
    obtain ⟨t, ht⟩ := formatDdgItem_head 1 r
    obtain ⟨u, hu⟩ := intercalate_head_cons "\n\n---\n\n" _ (formatDdgFrom 2 rs) '*' t ht
    exact pyStartsWith_false_of_head _ _ '*' 'A' u ("lternative search unavailable").data hu rfl rfl

theorem ddg_error_unavailable (f : DdgFailure) :
    pyStartsWith (fallback_search_alternative (Except.error f))
      "Alternative search unavailable" = true := by
  cases f with
  | importError => decide
  | otherError e => exact pyStartsWith_append_left _ e _ (by decide)

theorem append_ne_empty (a b : String) (ha : a ≠ "") : a ++ b ≠ "" := by
  intro he
  have hd := congrArg String.data he
  rw [String.data_append] at hd
  have hnil : a.data = [] := (List.append_eq_nil.mp hd).1
  exact ha (String.ext hnil)

/-- Amended claim C1: providers are consulted strictly in the order SerpAPI
(skipped when the key is absent or empty) then DuckDuckGo, and fallthrough to
DuckDuckGo happens exactly when the SerpAPI call raises; a SerpAPI call that
succeeds is final even when it yields zero usable items (its in-band
no-results message is returned and DuckDuckGo is never consulted).  Likewise a
non-raising DuckDuckGo call is final, and only a raising one yields the
aggregate failure message. -/
theorem fallback_provider_priority (q : String) (key : Option String)
    (serpResponse : Except SerpFailure SerpResponse)
    (ddgResponse : Except DdgFailure (List DdgResult)) :
    (pyTruthy key = true → ∀ data, serpResponse = Except.ok data →
      comprehensive_fallback_search q key serpResponse ddgResponse =
        serpHeader ++ fallback_live_search q key serpResponse) ∧
    (pyTruthy key = true → ∀ f, serpResponse = Except.error f →
      comprehensive_fallback_search q key serpResponse ddgResponse =
        ddgFallbackStage ddgResponse) ∧
    (pyTruthy key = false →
      comprehensive_fallback_search q key serpResponse ddgResponse =
        ddgFallbackStage ddgResponse) ∧
    (∀ items, ddgResponse = Except.ok items →
      ddgFallbackStage ddgResponse = ddgHeader ++ fallback_search_alternative ddgResponse) ∧
    (∀ f, ddgResponse = Except.error f → ddgFallbackStage ddgResponse = allFailedMessage) := by
  refine ⟨?_, ?_, ?_, ?_, ?_⟩
  · intro hk data hs
    subst hs
    unfold comprehensive_fallback_search
    rw [if_pos hk, if_pos (serp_ok_not_unavailable q key data hk)]
  · intro hk f hs
    subst hs
    unfold comprehensive_fallback_search
    rw [if_pos hk, if_neg (by simp [serp_error_unavailable q key f])]
  · intro hk
    unfold comprehensive_fallback_search
    rw [if_neg (by simp [hk])]
  · intro items hd
    subst hd
    unfold ddgFallbackStage
    rw [if_pos (ddg_ok_not_unavailable items)]
  · intro f hd
    subst hd
    unfold ddgFallbackStage
    rw [if_neg (by simp [ddg_error_unavailable f])]

/-- Witness for the amended C1: a credentialed SerpAPI call that succeeds is
final, so its result (here the zero-item message) is returned with the SerpAPI
header. -/
theorem fallback_provider_priority_witness :
    comprehensive_fallback_search "plant disease" (some "KEY")
        (Except.ok ⟨some [], none⟩) (Except.ok []) =
      serpHeader ++ fallback_live_search "plant disease" (some "KEY")
        (Except.ok ⟨some [], none⟩) :=
  (fallback_provider_priority "plant disease" (some "KEY") (Except.ok ⟨some [], none⟩)
    (Except.ok [])).1 (by decide) ⟨some [], none⟩ rfl

/-- Counterexample to C1 as stated: SerpAPI succeeds but yields zero usable
items, DuckDuckGo would succeed with two items, yet the code returns SerpAPI's
in-band no-results message and never falls through to DuckDuckGo's results. -/
theorem fallback_zero_items_counterexample :
    comprehensive_fallback_search "plant disease" (some "KEY") (Except.ok ⟨some [], none⟩)
        (Except.ok [⟨"T1", "B1", "U1"⟩, ⟨"T2", "B2", "U2"⟩]) =
      serpHeader ++ "No relevant search results found for your agricultural query." ∧
    comprehensive_fallback_search "plant disease" (some "KEY") (Except.ok ⟨some [], none⟩)
        (Except.ok [⟨"T1", "B1", "U1"⟩, ⟨"T2", "B2", "U2"⟩]) ≠
      ddgHeader ++ fallback_search_alternative
        (Except.ok [⟨"T1", "B1", "U1"⟩, ⟨"T2", "B2", "U2"⟩]) := by
  exact ⟨rfl, by decide⟩

/-- Amended claim C5: the organic items lacking a snippet are discarded, the
answer-box item (present exactly when the provider exposes a snippet field,
even an empty one) is placed first, and the cap of 3 is applied after that
reordering, so more than 3 usable items yield exactly 3 with the direct-answer
item first. -/
theorem serp_normalization_cap (data : SerpResponse) :
    ((extractedResults data).take 3).length ≤ 3 ∧
    ((extractedResults data).length > 3 → ((extractedResults data).take 3).length = 3) ∧
    (∀ r, r ∈ organicItems data → r.snippet.isEmpty = false) ∧
    (∀ r, answerBoxItem data = some r → ((extractedResults data).take 3).head? = some r) ∧
    (answerBoxItem data = none → extractedResults data = organicItems data) := by
  refine ⟨?_, ?_, ?_, ?_, ?_⟩
  · simp [List.length_take]
  · intro h
    simp only [List.length_take]
    omega
  · intro r hr
    unfold organicItems at hr
    cases horg : data.organic_results with
    | none => rw [horg] at hr; simp at hr
    | some rs =>
      rw [horg] at hr
      obtain ⟨a, _, hfa⟩ := List.mem_filterMap.mp hr
      by_cases hsn : (a.snippet.getD "").isEmpty = true
      · rw [if_pos hsn] at hfa
        exact absurd hfa (by simp)
      · rw [if_neg hsn] at hfa
        have hr2 : r = ⟨a.title.getD "", a.snippet.getD "", a.link.getD ""⟩ :=
          (Option.some.injEq _ _).mp hfa |>.symm
      
        rw [hr2]
        exact Bool.not_eq_true _ |>.mp hsn
  · intro r habr
    simp [extractedResults, habr]
  · intro habr
    simp [extractedResults, habr]

/-- Witness for the amended C5: an answer box plus four usable organic items
are capped to exactly 3 with the Featured Answer first. -/
theorem serp_normalization_cap_witness :
    ((extractedResults ⟨some [⟨some "t1", some "s1", some "u1"⟩,
        ⟨some "t2", some "s2", some "u2"⟩, ⟨some "t3", some "s3", some "u3"⟩,
        ⟨some "t4", some "s4", some "u4"⟩], some ⟨some "sAB", some "uAB"⟩⟩).take 3).length = 3 ∧
    ((extractedResults ⟨some [⟨some "t1", some "s1", some "u1"⟩,
        ⟨some "t2", some "s2", some "u2"⟩, ⟨some "t3", some "s3", some "u3"⟩,
        ⟨some "t4", some "s4", some "u4"⟩], some ⟨some "sAB", some "uAB"⟩⟩).take 3).head? =
      some ⟨"Featured Answer", "sAB", "uAB"⟩ :=
  ⟨(serp_normalization_cap _).2.1 (by decide), (serp_normalization_cap _).2.2.2.1 _ rfl⟩

/-- Counterexample to C5 as stated: an answer box whose snippet field is
present but empty produces a kept item with an empty snippet — an item lacking
a snippet that is not discarded before capping. -/
theorem serp_empty_snippet_counterexample :
    (extractedResults ⟨none, some ⟨some "", some "u"⟩⟩).take 3 =
      [⟨"Featured Answer", "", "u"⟩] ∧
    ((extractedResults ⟨none, some ⟨some "", some "u"⟩⟩).take 3).any
      (fun r => r.snippet.isEmpty) = true := by
  exact ⟨rfl, rfl⟩

/-- Amended claim C6: when both provider calls raise, the result is the fixed
aggregate unavailability message — non-empty and independent of either
provider's raw error text.  (A provider that merely returns zero items does
not reach this aggregate path.) -/
theorem all_providers_error_aggregate (q : String) (key : Option String)
    (sf : SerpFailure) (df : DdgFailure) :
    comprehensive_fallback_search q key (Except.error sf) (Except.error df) = allFailedMessage ∧
    allFailedMessage ≠ "" := by
  constructor
  · have hstage : ddgFallbackStage (Except.error df) = allFailedMessage := by
      unfold ddgFallbackStage
      rw [if_neg (by simp [ddg_error_unavailable df])]
    by_cases hk : pyTruthy key = true
    · unfold comprehensive_fallback_search
      rw [if_pos hk, if_neg (by simp [serp_error_unavailable q key sf]), hstage]
    · unfold comprehensive_fallback_search
      rw [if_neg (by simp [hk]), hstage]
  · decide

/-- Counterexample to C6 as stated: SerpAPI raises and DuckDuckGo succeeds
with zero usable items — per the claim every provider was exhausted — yet the
code returns an in-band DuckDuckGo no-results message, not an Unavailable
outcome describing that all configured methods failed. -/
theorem zero_items_not_unavailable_counterexample :
    comprehensive_fallback_search "q" (some "KEY")
        (Except.error (SerpFailure.requestError "boom")) (Except.ok []) =
      ddgHeader ++ "No relevant search results found." ∧
    comprehensive_fallback_search "q" (some "KEY")
        (Except.error (SerpFailure.requestError "boom")) (Except.ok []) ≠
      allFailedMessage := by
  exact ⟨rfl, by decide⟩

/-- Claim C10: the comprehensive fallback search is total at its interface —
every provider-level failure arrives as caught data, every branch returns an
in-band message, and the returned string is never empty. -/
theorem comprehensive_search_total_nonempty (q : String) (key : Option String)
    (serpResponse : Except SerpFailure SerpResponse)
    (ddgResponse : Except DdgFailure (List DdgResult)) :
    comprehensive_fallback_search q key serpResponse ddgResponse ≠ "" := by
  have hddg : ddgFallbackStage ddgResponse ≠ "" := by
    unfold ddgFallbackStage
    split
    · exact append_ne_empty ddgHeader _ (by decide)
    · decide
  unfold comprehensive_fallback_search
  split
  · split
    · exact append_ne_empty serpHeader _ (by decide)
    · exact hddg
  · exact hddg

/-- Witness for the amended C3 at a concrete call. -/
theorem retrieve_missing_index_silent_witness :
    retrieve_context_with_score false [("doc", (2 : ℚ) / 5)] 1 = (none, 0) :=
  retrieve_missing_index_silent [("doc", (2 : ℚ) / 5)] 1

/-- Witness for the amended C6 at concrete provider failures. -/
theorem all_providers_error_aggregate_witness :
    comprehensive_fallback_search "q" none (Except.error (SerpFailure.otherError "a"))
        (Except.error DdgFailure.importError) = allFailedMessage ∧
    allFailedMessage ≠ "" :=
  all_providers_error_aggregate "q" none (SerpFailure.otherError "a") DdgFailure.importError

/-- Witness for C8 at a concrete record. -/
theorem rowText_placeholder_total_witness :
    preprocess_kcc [⟨some "how to sow", some "use seed drill", none, none, none⟩] =
      [("0", "Query: " ++ "how to sow" ++ "\nAnswer: " ++ "use seed drill" ++
        "\nMeta: State=" ++ pandasCell none ++ ", District=" ++ pandasCell none ++
        ", Crop=" ++ pandasCell none)] ∧
    pandasCell none = "nan" :=
  rowText_placeholder_total "how to sow" "use seed drill" none none none

/-- Witness for C10 at a concrete total-failure input. -/
theorem comprehensive_search_total_nonempty_witness :
    comprehensive_fallback_search "q" none (Except.error (SerpFailure.otherError "x"))
        (Except.error DdgFailure.importError) ≠ "" :=
  comprehensive_search_total_nonempty "q" none (Except.error (SerpFailure.otherError "x"))
    (Except.error DdgFailure.importError)
